import Mathlib

/-
Shallow embedding of the Bug Reporting & Tracking System (src/app.js plus
the Mongoose schemas shown in the repository docs).  Pure request handlers
are modelled as Lean functions; the session, request bodies and query
parameters are explicit arguments.  JavaScript string truthiness is
modelled on Option String (undefined = none, falsy string = "").
-/

namespace BugTracker

/-- Authenticated session snapshot, as set by POST /login
(`req.session.userId / userName / userRole`). -/
structure Session where
  userId : String
  userName : String
  userRole : String
deriving DecidableEq, Repr

/-- Raw session identity fields, possibly unset (before login the three
fields are undefined on `req.session`). -/
structure SessionState where
  userId : Option String
  userName : Option String
  userRole : Option String
deriving DecidableEq, Repr

/-- A stored user record (User schema: name, unique email, passwordHash,
role, createdAt; the id is the document id). -/
structure User where
  id : String
  name : String
  email : String
  passwordHash : String
  role : String
deriving DecidableEq, Repr

/-- A stored bug record (Bug schema: title required, description optional
(modelled as a string, "" for absent), severity and status strings with
schema defaults, reporter a required user reference, createdAt from the
schema timestamps).  The document id is `id`. -/
structure Bug where
  id : String
  title : String
  description : String
  severity : String
  status : String
  reporter : String
  createdAt : Nat
deriving DecidableEq, Repr

/-- JavaScript truthiness of an optional string: undefined and "" are
falsy, every other string is truthy. -/
def truthyStr : Option String → Bool
  | none => false
  | some s => s ≠ ""

/- ---------------- Dashboard query builder (GET /dashboard) ---------------- -/

/-- The user-controlled query parameters of GET /dashboard
(`const \x7b q, status, severity, page = 1 \x7d = req.query`); each is a
string when supplied and undefined when absent. -/
structure QueryParams where
  q : Option String
  status : Option String
  severity : Option String
  page : Option String
deriving DecidableEq, Repr

/-- The filter document built by GET /dashboard (app.js lines 178-187).
A field is `some v` when the handler assigned it and `none` when absent.
`titleRegex` holds the raw pattern passed as `$regex` with `$options: 'i'`. -/
structure Filter where
  reporter : Option String
  status : Option String
  severity : Option String
  titleRegex : Option String
deriving DecidableEq, Repr

/-- GET /dashboard filter construction (app.js lines 178-187): start from
an empty document; if the session role is not "admin" set
`filter.reporter = req.session.userId`; then `if (status) filter.status =
status`, `if (severity) filter.severity = severity`, `if (q) filter.title
= \x7b $regex: q, $options: 'i' \x7d`.  The four assignments touch disjoint
keys, so the document is given directly field by field. -/
def buildFilter (s : Session) (p : QueryParams) : Filter :=
  { reporter := if s.userRole ≠ "admin" then some s.userId else none
    status := if truthyStr p.status then p.status else none
    severity := if truthyStr p.severity then p.severity else none
    titleRegex := if truthyStr p.q then p.q else none }

/- ------------- Regex matching for the title filter ($regex, 'i') ------------- -/

/-- Characters with special meaning in a (JavaScript/PCRE-style) regular
expression pattern, as interpreted by the store for `$regex`. -/
def regexSpecial (c : Char) : Bool :=
  c ∈ ['.', '*', '+', '?', '(', ')', '[', ']', '\x7b', '\x7d', '\\', '^', '$', '|']

/-- An atom of the modelled regex fragment: a literal character or `.`. -/
inductive RAtom where
  | lit (c : Char)
  | dot
deriving DecidableEq, Repr

/-- A piece of a pattern: an atom, optionally quantified by `*` or `+`. -/
inductive RPiece where
  | once (a : RAtom)
  | star (a : RAtom)
  | plus (a : RAtom)
deriving DecidableEq, Repr

/-- Whether a pattern atom matches one input character. -/
def atomMatches (a : RAtom) (c : Char) : Bool :=
  match a with
  | .lit d => d == c
  | .dot => true

/-- Matching of a starred atom: consume zero or more characters matching
the atom, then hand the remaining input to the continuation. -/
def matchStar (a : RAtom) (k : List Char → Bool) : List Char → Bool
  | [] => k []
  | c :: cs => k (c :: cs) || (atomMatches a c && matchStar a k cs)

/-- Unanchored-at-the-end matching of a pattern against the start of the
input: true when some way of consuming the pieces matches a leading
segment of the input (`x+` consumes one character and then behaves like
`x*`). -/
def matchHere : List RPiece → List Char → Bool
  | [], _ => true
  | RPiece.once _ :: _, [] => false
  | RPiece.once a :: ps, c :: cs => atomMatches a c && matchHere ps cs
  | RPiece.star a :: ps, cs => matchStar a (matchHere ps) cs
  | RPiece.plus _ :: _, [] => false
  | RPiece.plus a :: ps, c :: cs => atomMatches a c && matchStar a (matchHere ps) cs

/-- Unanchored regex acceptance: the pattern matches at some start
position of the input (the semantics of an unanchored `$regex` search). -/
def regexAccepts (ps : List RPiece) : List Char → Bool
  | [] => matchHere ps []
  | c :: cs => matchHere ps (c :: cs) || regexAccepts ps cs

/-- The atom denoted by one pattern character. -/
def toAtom (c : Char) : RAtom :=
  if c == '.' then RAtom.dot else RAtom.lit c

/-- Parse a pattern string of the modelled regex fragment (literal
characters, `.`, and the quantifiers `*`/`+` on a single atom) into
pieces; patterns using other special characters are outside the fragment
and give `none`. -/
def parseRegex : List Char → Option (List RPiece)
  | [] => some []
  | c :: rest =>
    if regexSpecial c && c != '.' then none
    else
      match rest with
      | [] => some [RPiece.once (toAtom c)]
      | d :: rest2 =>
        if d == '*' then (parseRegex rest2).map fun ps => RPiece.star (toAtom c) :: ps
        else if d == '+' then (parseRegex rest2).map fun ps => RPiece.plus (toAtom c) :: ps
        else (parseRegex (d :: rest2)).map fun ps => RPiece.once (toAtom c) :: ps

/-- Case-folded character list of a string: the `'i'` option makes the
store compare pattern and input case-insensitively, modelled by lowering
both sides. -/
def lowerStr (s : String) : List Char :=
  s.toList.map Char.toLower

/-- Semantics of the title predicate `\x7b $regex: q, $options: 'i' \x7d`
added by GET /dashboard: the title matches when it matches `q` read as a
case-insensitive regular expression.  The store's regex dialect is
modelled on the fragment handled by `parseRegex`; patterns outside the
fragment are left unmodelled (no match). -/
def titleMatchesQ (q title : String) : Bool :=
  match parseRegex (lowerStr q) with
  | none => false
  | some ps => regexAccepts ps (lowerStr title)

/-- A needle is a leading literal segment of the haystack. -/
def startsWithLit : List Char → List Char → Bool
  | [], _ => true
  | _ :: _, [] => false
  | a :: as, b :: bs => a == b && startsWithLit as bs

/-- A needle occurs as a contiguous literal segment of the haystack. -/
def containsLit (l : List Char) : List Char → Bool
  | [] => startsWithLit l []
  | c :: cs => startsWithLit l (c :: cs) || containsLit l cs

/-- Spec-side predicate for the search-box contract: `q` occurs as a
case-insensitive literal piece of contiguous text inside the title. -/
def ciSubstring (q title : String) : Bool :=
  containsLit (lowerStr q) (lowerStr title)

/-- Whether a bug document satisfies the filter: a Mongo find filter is
the conjunction of its per-field constraints (equality for reporter,
status, severity; the case-insensitive regex for the title). -/
def filterMatches (f : Filter) (b : Bug) : Bool :=
  (match f.reporter with | none => true | some r => b.reporter == r) &&
  (match f.status with | none => true | some s => b.status == s) &&
  (match f.severity with | none => true | some s => b.severity == s) &&
  (match f.titleRegex with | none => true | some q => titleMatchesQ q b.title)

/- ---------------- Pagination (GET /dashboard, lines 176 and 192) ---------------- -/

/-- Decimal digits read as a natural number. -/
def digitsToNat (ds : List Char) : Nat :=
  ds.foldl (fun a c => a * 10 + (c.toNat - '0'.toNat)) 0

/-- JavaScript numeric coercion of a string, modelled on integer-valued
inputs: an optional leading '-' followed by digits coerces to that
integer, the empty string coerces to 0, and anything else is NaN
(`none`).  (Leading/trailing whitespace, '+' signs, fractional and hex
literals are outside the modelled inputs.) -/
def jsStringToInt (s : String) : Option Int :=
  match s.toList with
  | [] => some 0
  | '-' :: ds =>
      if ds ≠ [] ∧ ds.all Char.isDigit then some (-(digitsToNat ds : Int)) else none
  | ds =>
      if ds.all Char.isDigit then some (digitsToNat ds : Int) else none

/-- The skip the dashboard passes to the store: `.skip((page-1)*limit)`
with `limit = 10` and `const \x7b page = 1 \x7d = req.query` destructuring
(the default 1 applies only when the parameter is absent); `page - 1`
numerically coerces a supplied string, so a non-numeric page yields NaN
(`none`). -/
def dashboardSkip (pageParam : Option String) : Option Int :=
  match pageParam with
  | none => some 0
  | some s => (jsStringToInt s).map fun n => (n - 1) * 10

/-- The sort document of GET /dashboard is `\x7b createdAt: -1 \x7d`: the
comparator induced on two bug documents orders by createdAt descending
and by nothing else. -/
def sortCmp (a b : Bug) : Ordering :=
  compare b.createdAt a.createdAt

/- ---------------- Authorization predicates (view / edit-form / update) ---------------- -/

/-- Denial test of GET /bugs/:id (line 221):
`req.session.userRole !== 'admin' && String(bug.reporter._id) !== String(req.session.userId)`. -/
def viewDenied (s : Session) (b : Bug) : Bool :=
  s.userRole ≠ "admin" && b.reporter ≠ s.userId

/-- Denial test of GET /bugs/:id/edit (line 238):
`req.session.userRole !== 'admin' && String(bug.reporter) !== String(req.session.userId)`. -/
def editFormDenied (s : Session) (b : Bug) : Bool :=
  s.userRole ≠ "admin" && b.reporter ≠ s.userId

/-- Denial test of PUT /bugs/:id (line 258):
`req.session.userRole !== 'admin' && String(bug.reporter) !== String(req.session.userId)`. -/
def updateDenied (s : Session) (b : Bug) : Bool :=
  s.userRole ≠ "admin" && b.reporter ≠ s.userId

/-- Outcome of a single-bug route. -/
inductive Outcome where
  | notFound
  | accessDenied
  | ok
deriving DecidableEq, Repr

/-- GET /bugs/:id (lines 213-231): look up the bug; if absent, "Bug not
found"; else if the denial test holds, "Not authorized"; else render. -/
def viewRoute (s : Session) (lookup : Option Bug) : Outcome :=
  match lookup with
  | none => Outcome.notFound
  | some b => if viewDenied s b then Outcome.accessDenied else Outcome.ok

/-- GET /bugs/:id/edit (lines 234-250): same shape as the view route. -/
def editFormRoute (s : Session) (lookup : Option Bug) : Outcome :=
  match lookup with
  | none => Outcome.notFound
  | some b => if editFormDenied s b then Outcome.accessDenied else Outcome.ok

/- ---------------- Bug creation and update ---------------- -/

/-- Body fields read by POST /bugs (line 156 destructures only title,
description and severity; status and reporter are never read from the
body). -/
structure CreateBody where
  title : Option String
  description : Option String
  severity : Option String
deriving DecidableEq, Repr

/-- Body fields read by PUT /bugs/:id (line 255). -/
structure UpdateBody where
  title : Option String
  description : Option String
  severity : Option String
  status : Option String
deriving DecidableEq, Repr

/-- The allowed severity values of the Bug schema enum. -/
def severityEnum : List String := ["Low", "Medium", "High"]

/-- POST /bugs (lines 154-163): construct a Bug from the body with
`reporter: req.session.userId` and save it.  Saving validates the
schema: a missing or empty title fails the required validator, a
supplied severity outside the enum fails the enum validator (the handler
then redirects without creating anything, modelled as `none`).  An
absent severity takes the schema default "Low"; status is never supplied
and takes the schema default "Open". -/
def createBug (s : Session) (body : CreateBody) (id : String) (now : Nat) : Option Bug :=
  match body.title with
  | none => none
  | some t =>
    if t = "" then none
    else
      match body.severity with
      | none =>
          some { id := id, title := t, description := body.description.getD ""
                 severity := "Low", status := "Open", reporter := s.userId, createdAt := now }
      | some sev =>
          if sev ∈ severityEnum then
            some { id := id, title := t, description := body.description.getD ""
                   severity := sev, status := "Open", reporter := s.userId, createdAt := now }
          else none

/-- One conditional field assignment of PUT /bugs/:id: `if (v) bug.f = v`
keeps the old value when the submitted value is undefined or "". -/
def setIfTruthy (v : Option String) (old : String) : String :=
  match v with
  | none => old
  | some s => if s ≠ "" then s else old

/-- The field updates of PUT /bugs/:id (lines 262-266): each of title,
description, severity, status is overwritten only when its submitted
value is truthy; no other field of the document is assigned. -/
def applyUpdate (body : UpdateBody) (b : Bug) : Bug :=
  { b with
    title := setIfTruthy body.title b.title
    description := setIfTruthy body.description b.description
    severity := setIfTruthy body.severity b.severity
    status := setIfTruthy body.status b.status }

/-- PUT /bugs/:id (lines 253-269): look up the bug; absent is "Bug not
found"; then the denial test; on success apply the field updates and
save. -/
def updateRoute (s : Session) (body : UpdateBody) (lookup : Option Bug) : Outcome × Option Bug :=
  match lookup with
  | none => (Outcome.notFound, none)
  | some b =>
    if updateDenied s b then (Outcome.accessDenied, none)
    else (Outcome.ok, some (applyUpdate body b))

/- ---------------- Registration and login ---------------- -/

/-- Result of POST /login. -/
inductive LoginResult where
  | userNotFound
  | invalidCredentials
  | success
deriving DecidableEq, Repr

/-- POST /login (lines 115-133): look the user up by email; if absent,
flash "Please Register First!" and redirect to /register
(`userNotFound`) leaving the session untouched; if the bcrypt comparison
fails, "Invalid credentials" (`invalidCredentials`) leaving the session
untouched; on success set userId, userName and userRole from the user
record.  The credential store and hash comparison are the external
collaborators `findUserByEmail` and `verifyPassword`. -/
def login (findUserByEmail : String → Option User) (verifyPassword : String → String → Bool)
    (email password : String) (sess : SessionState) : LoginResult × SessionState :=
  match findUserByEmail email with
  | none => (LoginResult.userNotFound, sess)
  | some u =>
    if verifyPassword password u.passwordHash then
      (LoginResult.success, { userId := some u.id, userName := some u.name, userRole := some u.role })
    else (LoginResult.invalidCredentials, sess)

/-- POST /register (lines 87-109): reject when name, email or password is
falsy or the email already exists; otherwise store a user whose role is
`role === 'admin' ? 'admin' : 'reporter'` and whose passwordHash comes
from the external hash function. -/
def register (findUserByEmail : String → Option User) (hash : String → String)
    (name email password role : Option String) (newId : String) : Option User :=
  if ¬ truthyStr name ∨ ¬ truthyStr email ∨ ¬ truthyStr password then none
  else
    match findUserByEmail (email.getD "") with
    | some _ => none
    | none =>
      some { id := newId, name := name.getD "", email := email.getD ""
             passwordHash := hash (password.getD "")
             role := if role = some "admin" then "admin" else "reporter" }

/- ======================= Theorems ======================= -/

/-- Helper: a pattern free of special characters parses to the sequence
of its characters as literal one-shot pieces. -/
theorem parse_noSpecial : ∀ l : List Char, (∀ c ∈ l, regexSpecial c = false) →
    parseRegex l = some (l.map fun c => RPiece.once (RAtom.lit c)) := by
  intro l
  induction l with
  | nil => intro _; rfl
  | cons c rest ih =>
    intro h
    have hc : regexSpecial c = false := h c (by simp)
    have hcdot : (c == '.') = false := by
      by_cases e : c = '.'
      · subst e; exact absurd hc (by decide)
      · simp [e]
    cases rest with
    | nil =>
      simp [parseRegex, hc, toAtom, hcdot]
    | cons d rest2 =>
      have hd : regexSpecial d = false := h d (by simp)
      have hdstar : (d == '*') = false := by
        by_cases e : d = '*'
        · subst e; exact absurd hd (by decide)
        · simp [e]
      have hdplus : (d == '+') = false := by
        by_cases e : d = '+'
        · subst e; exact absurd hd (by decide)
        · simp [e]
      have ihh := ih (fun x hx => h x (by simp [hx]))
      simp [parseRegex, hc, hdstar, hdplus, toAtom, hcdot, ihh]

/-- Helper: a pattern of literal one-shot pieces matches at the start of
the input exactly when the character list is a leading segment. -/
theorem matchHere_lits : ∀ (l cs : List Char),
    matchHere (l.map fun c => RPiece.once (RAtom.lit c)) cs = startsWithLit l cs := by
  intro l
  induction l with
  | nil => intro cs; rfl
  | cons a as ih =>
    intro cs
    cases cs with
    | nil => rfl
    | cons b bs => simp [matchHere, startsWithLit, atomMatches, ih]

/-- Helper: unanchored acceptance of a purely literal pattern is literal
containment. -/
theorem regexAccepts_lits (l : List Char) : ∀ cs,
    regexAccepts (l.map fun c => RPiece.once (RAtom.lit c)) cs = containsLit l cs := by
  intro cs
  induction cs with
  | nil => simp [regexAccepts, containsLit, matchHere_lits]
  | cons c cs ih => simp [regexAccepts, containsLit, matchHere_lits, ih]

/-- C1: for every session and every combination of user-supplied
parameters, the dashboard filter carries the reporter constraint exactly
when the session role is not "admin"; under a non-admin session a bug can
satisfy the filter only if its reporter is the session's userId, and an
admin filter carries no reporter constraint at all. -/
theorem dashboard_reporter_scoping (s : Session) (p : QueryParams) :
    ((buildFilter s p).reporter = some s.userId ↔ s.userRole ≠ "admin") ∧
    (s.userRole = "admin" → (buildFilter s p).reporter = none) ∧
    (s.userRole ≠ "admin" → ∀ b : Bug,
      filterMatches (buildFilter s p) b = true → b.reporter = s.userId) := by
  by_cases h : s.userRole = "admin"
  · refine ⟨?_, fun _ => ?_, fun hn => absurd h hn⟩ <;> simp [buildFilter, h]
  · refine ⟨?_, fun ha => absurd ha h, fun _ b hm => ?_⟩
    · simp [buildFilter, h]
    · simp only [filterMatches, buildFilter, if_pos h, Bool.and_eq_true] at hm
      have := hm.1.1.1
      simp only [ne_eq, h, not_false_iff, if_true] at this ⊢
      exact of_decide_eq_true (by simpa using this)

theorem dashboard_reporter_scoping_witness :
    (Bug.mk "b1" "Crash" "" "High" "Open" "u1" 0).reporter = "u1" :=
  (dashboard_reporter_scoping ⟨"u1", "Alice", "reporter"⟩
      ⟨some "crash", some "Open", some "High", some "0"⟩).2.2
    (by decide) (Bug.mk "b1" "Crash" "" "High" "Open" "u1" 0) (by decide)

/-- C2: the view, edit-form and update actions evaluate the same
authorization predicate: all three denial tests agree on every
(session, bug) pair, and access is allowed exactly when the session role
is "admin" or the bug's reporter is the session's userId. -/
theorem authz_uniform (s : Session) (b : Bug) :
    viewDenied s b = editFormDenied s b ∧ editFormDenied s b = updateDenied s b ∧
    (viewDenied s b = false ↔ (s.userRole = "admin" ∨ b.reporter = s.userId)) := by
  refine ⟨rfl, rfl, ?_⟩
  simp [viewDenied]
  tauto

/-- C5: on a nonexistent bug each of the three single-bug routes yields
NotFound for every session, before any authorization predicate can
apply, and NotFound is distinct from AccessDenied. -/
theorem missing_bug_not_found (s : Session) (body : UpdateBody) :
    viewRoute s none = Outcome.notFound ∧ editFormRoute s none = Outcome.notFound ∧
    (updateRoute s body none).1 = Outcome.notFound ∧
    Outcome.notFound ≠ Outcome.accessDenied :=
  ⟨rfl, rfl, rfl, by decide⟩

/-- C7: every bug created by POST /bugs carries the creating session's
userId as reporter, and the update operation never changes the reporter
(nor the id or creation timestamp): only title, description, severity
and status are assigned. -/
theorem reporter_immutable :
    (∀ (s : Session) (body : CreateBody) (id : String) (now : Nat) (b : Bug),
        createBug s body id now = some b → b.reporter = s.userId) ∧
    (∀ (body : UpdateBody) (b : Bug),
        (applyUpdate body b).reporter = b.reporter ∧ (applyUpdate body b).id = b.id ∧
        (applyUpdate body b).createdAt = b.createdAt) := by
  constructor
  · intro s body id now b h
    unfold createBug at h
    split at h
    · exact absurd h (by simp)
    · split at h
      · exact absurd h (by simp)
      · split at h
        · cases h; rfl
        · split at h
          · cases h; rfl
          · exact absurd h (by simp)
  · intro body b; exact ⟨rfl, rfl, rfl⟩

theorem reporter_immutable_witness :
    (Bug.mk "b9" "Crash" "" "Low" "Open" "u7" 5).reporter = "u7" :=
  reporter_immutable.1 ⟨"u7", "Bob", "reporter"⟩ ⟨some "Crash", none, none⟩ "b9" 5
    (Bug.mk "b9" "Crash" "" "Low" "Open" "u7" 5) (by decide)

/-- C8: login with an unknown email yields UserNotFound and leaves the
session unchanged; login with a known email but failing hash
verification yields InvalidCredentials and leaves the session unchanged;
the identity fields are assigned only on the success path. -/
theorem login_failure_session_unchanged
    (findU : String → Option User) (verify : String → String → Bool)
    (email password : String) (sess : SessionState) :
    (findU email = none →
        login findU verify email password sess = (LoginResult.userNotFound, sess)) ∧
    (∀ u, findU email = some u → verify password u.passwordHash = false →
        login findU verify email password sess = (LoginResult.invalidCredentials, sess)) ∧
    (∀ u, findU email = some u → verify password u.passwordHash = true →
        login findU verify email password sess =
          (LoginResult.success,
            { userId := some u.id, userName := some u.name, userRole := some u.role })) := by
  refine ⟨fun h => by simp [login, h], fun u h hv => by simp [login, h, hv],
    fun u h hv => by simp [login, h, hv]⟩

theorem login_failure_session_unchanged_witness :
    login (fun e => if e == "a@x.com" then some (User.mk "u1" "A" "a@x.com" "H" "reporter") else none)
      (fun p hsh => hsh == "H" ++ p) "b@x.com" "pw" (SessionState.mk none none none) =
      (LoginResult.userNotFound, SessionState.mk none none none) :=
  (login_failure_session_unchanged
      (fun e => if e == "a@x.com" then some (User.mk "u1" "A" "a@x.com" "H" "reporter") else none)
      (fun p hsh => hsh == "H" ++ p) "b@x.com" "pw" (SessionState.mk none none none)).1
    (by decide)

/-- C9: the stored role of a successfully registered user is "admin"
exactly when the supplied role value is the string "admin"; in every
case the stored role is "admin" or "reporter". -/
theorem registered_role_constrained
    (findU : String → Option User) (hash : String → String)
    (name email password role : Option String) (newId : String) (u : User)
    (h : register findU hash name email password role newId = some u) :
    (u.role = "admin" ↔ role = some "admin") ∧ (u.role = "admin" ∨ u.role = "reporter") := by
  unfold register at h
  split at h
  · exact absurd h (by simp)
  · split at h
    · exact absurd h (by simp)
    · cases h
      by_cases hr : role = some "admin" <;> simp [hr]

theorem registered_role_constrained_witness :
    ((User.mk "u1" "Eve" "e@x" "H:pw" "reporter").role = "admin" ↔
        (some "boss" : Option String) = some "admin") ∧
    ((User.mk "u1" "Eve" "e@x" "H:pw" "reporter").role = "admin" ∨
        (User.mk "u1" "Eve" "e@x" "H:pw" "reporter").role = "reporter") :=
  registered_role_constrained (fun _ => none) (fun p => "H:" ++ p)
    (some "Eve") (some "e@x") (some "pw") (some "boss") "u1"
    (User.mk "u1" "Eve" "e@x" "H:pw" "reporter") (by decide)

/-- C10: in an authorized update, each of the four fields whose submitted
value is absent or the empty string keeps its previous stored value, and
a non-empty description can never be cleared back to empty. -/
theorem update_falsy_fields_unchanged (body : UpdateBody) (b : Bug) :
    (body.title = none ∨ body.title = some "" → (applyUpdate body b).title = b.title) ∧
    (body.description = none ∨ body.description = some "" →
        (applyUpdate body b).description = b.description) ∧
    (body.severity = none ∨ body.severity = some "" →
        (applyUpdate body b).severity = b.severity) ∧
    (body.status = none ∨ body.status = some "" → (applyUpdate body b).status = b.status) ∧
    ((applyUpdate body b).description = "" → b.description = "") := by
  refine ⟨?_, ?_, ?_, ?_, ?_⟩
  · rintro (h | h) <;> simp [applyUpdate, h, setIfTruthy]
  · rintro (h | h) <;> simp [applyUpdate, h, setIfTruthy]
  · rintro (h | h) <;> simp [applyUpdate, h, setIfTruthy]
  · rintro (h | h) <;> simp [applyUpdate, h, setIfTruthy]
  · intro h
    simp only [applyUpdate] at h
    rcases hd : body.description with _ | v
    · rw [hd] at h; exact h
    · rw [hd] at h
      simp only [setIfTruthy] at h
      split at h
      · exact absurd h (by assumption)
      · exact h

theorem update_falsy_fields_unchanged_witness :
    (applyUpdate ⟨none, some "", some "High", some "Closed"⟩
        (Bug.mk "b1" "T" "details" "Low" "Open" "u1" 0)).description =
      (Bug.mk "b1" "T" "details" "Low" "Open" "u1" 0).description :=
  (update_falsy_fields_unchanged ⟨none, some "", some "High", some "Closed"⟩
      (Bug.mk "b1" "T" "details" "Low" "Open" "u1" 0)).2.1 (Or.inr rfl)

/-- C3 counterexample: the page parameter is not normalized: page "0"
yields skip -10 (negative), page "-5" yields skip -60, and page "abc"
yields NaN, refuting that skip is never negative and never NaN. -/
theorem pagination_unnormalized_cex :
    dashboardSkip (some "0") = some (-10) ∧ dashboardSkip (some "-5") = some (-60) ∧
    dashboardSkip (some "abc") = none := by decide

/-- C3 amended: the default page 1 applies only when the parameter is
absent; a supplied page is numerically coerced with no minimum: the
computed skip is (page-1)*10 when the page coerces to an integer (and is
nonnegative exactly when that integer is at least 1), and is NaN when
the page does not coerce. -/
theorem pagination_amended :
    dashboardSkip none = some 0 ∧
    (∀ (s : String) (k : Int), dashboardSkip (some s) = some k →
      (0 ≤ k ↔ ∃ n : Int, jsStringToInt s = some n ∧ 1 ≤ n)) ∧
    (∀ s : String, jsStringToInt s = none → dashboardSkip (some s) = none) := by
  refine ⟨rfl, fun s k hk => ?_, fun s h => by simp [dashboardSkip, h]⟩
  simp only [dashboardSkip] at hk
  rcases hj : jsStringToInt s with _ | n
  · rw [hj] at hk
    simp at hk
  · rw [hj] at hk
    simp at hk
    subst hk
    constructor
    · intro h0
      exact ⟨n, rfl, by omega⟩
    · rintro ⟨m, hm, h1⟩
      cases hm
      omega

theorem pagination_amended_witness :
    0 ≤ (20 : Int) ↔ ∃ n : Int, jsStringToInt "3" = some n ∧ 1 ≤ n :=
  pagination_amended.2.1 "3" 20 (by decide)

/-- C6 counterexample: two distinct bugs with equal creation timestamps
and different identifiers compare as equal under the dashboard sort
comparator: no identifier tie-break exists and the order among equal
timestamps is not determined. -/
theorem sort_no_tiebreak_cex :
    sortCmp (Bug.mk "a" "T1" "" "Low" "Open" "u1" 100)
        (Bug.mk "b" "T2" "" "High" "Closed" "u2" 100) = Ordering.eq ∧
    (Bug.mk "a" "T1" "" "Low" "Open" "u1" 100).id ≠
        (Bug.mk "b" "T2" "" "High" "Closed" "u2" 100).id := by decide

/-- C6 amended: the dashboard sort orders by creation timestamp
descending and by nothing else: the comparator's verdict is determined
by the two timestamps alone, with equal timestamps comparing as equal. -/
theorem sort_desc_createdAt_only (a b : Bug) :
    (sortCmp a b = Ordering.lt ↔ b.createdAt < a.createdAt) ∧
    (sortCmp a b = Ordering.eq ↔ b.createdAt = a.createdAt) ∧
    (sortCmp a b = Ordering.gt ↔ a.createdAt < b.createdAt) := by
  unfold sortCmp
  exact ⟨Nat.compare_eq_lt, Nat.compare_eq_eq, Nat.compare_eq_gt⟩

/-- C4 counterexample: the title predicate interprets q as a regular
expression, not a literal: "a+b" matches the title "aab" and ".*"
matches "hello", though neither occurs as a literal substring. -/
theorem title_search_regex_cex :
    titleMatchesQ "a+b" "aab" = true ∧ ciSubstring "a+b" "aab" = false ∧
    titleMatchesQ ".*" "hello" = true ∧ ciSubstring ".*" "hello" = false := by decide

/-- C4 amended: the title predicate is a case-insensitive regex match on
q; when q (case-folded) contains no regex special character it coincides
with case-insensitive literal substring containment. -/
theorem title_search_literal_fragment (q title : String)
    (h : ∀ c ∈ lowerStr q, regexSpecial c = false) :
    titleMatchesQ q title = ciSubstring q title := by
  unfold titleMatchesQ ciSubstring
  rw [parse_noSpecial _ h]
  simp [regexAccepts_lits]

theorem title_search_literal_fragment_witness :
    titleMatchesQ "bug" "Big Bug Hunt" = ciSubstring "bug" "Big Bug Hunt" :=
  title_search_literal_fragment "bug" "Big Bug Hunt" (by decide)

end BugTracker
